import Mathlib

/-!
Shallow embedding of `src/python_backend.py` (GridSense backend).

Machine floats appearing in the generator are modelled as exact rationals;
the transcendental helpers `np.sin` and `np.pi` are abstracted as an oracle
carried in the environment (the float value an execution observes), and the
calls to `np.random.randint` become integer streams indexed by loop
iteration.  Python's `round` (round-half-to-even on floats) is modelled
exactly on rationals by `pyRound`.  Clock instants are rational numbers of
minutes since a local-midnight-aligned epoch, so `datetime.hour` becomes
`hourOf`.
-/

namespace GridSense

/-- Python's builtin `round` on a real value: round to nearest integer,
ties to even (the semantics of `round(float)` and of numpy scalars). -/
def pyRound (q : ℚ) : ℤ :=
  if q - ⌊q⌋ < 1 / 2 then ⌊q⌋
  else if 1 / 2 < q - ⌊q⌋ then ⌊q⌋ + 1
  else if 2 ∣ ⌊q⌋ then ⌊q⌋ else ⌊q⌋ + 1

/-- Hour-of-day of an instant given as minutes since a midnight-aligned
epoch: `datetime.hour`. -/
def hourOf (tMin : ℚ) : ℤ := ⌊tMin / 60⌋ % 24

/-- Minute-of-hour of an instant: `datetime.minute`. -/
def minuteOf (tMin : ℚ) : ℤ := ⌊tMin⌋ % 60

/-- Two-digit zero padding used by `strftime` fields `%I` and `%M`. -/
def pad2 (n : ℤ) : String := (if n < 10 then "0" else "") ++ toString n

/-- `future_time.strftime("%I:%M %p")`: 12-hour clock label. -/
def timeLabelOf (tMin : ℚ) : String :=
  let h := hourOf tMin
  let h12 := if h % 12 = 0 then 12 else h % 12
  pad2 h12 ++ ":" ++ pad2 (minuteOf tMin) ++ " " ++ (if h < 12 then "AM" else "PM")

/-- One record of the JSON `data` array built by `generate_prediction_data`
(timestamps kept as rational minutes rather than ISO strings). -/
structure ForecastPoint where
  timestamp : ℚ
  timeLabel : String
  demand : ℤ
  supply : ℤ
  gap : ℤ
  isPrediction : Bool
deriving DecidableEq

/-- The ambient state a single request observes: the captured
`datetime.now()` (as minutes), the float sine oracle, the float value of
`np.pi`, and the two `np.random.randint` draws of each loop iteration. -/
structure Env where
  nowMin : ℚ
  sinF : ℚ → ℚ
  piF : ℚ
  demandNoise : ℕ → ℤ
  windNoise : ℕ → ℤ

/-- The facts the Python runtime guarantees about the oracles: `np.sin`
lands in `[-1, 1]`, `np.random.randint(-200, 200)` in `[-200, 199]`, and
`np.random.randint(-500, 500)` in `[-500, 499]`. -/
structure EnvWF (env : Env) : Prop where
  sin_bound : ∀ q : ℚ, |env.sinF q| ≤ 1
  demand_noise_bound : ∀ i : ℕ, -200 ≤ env.demandNoise i ∧ env.demandNoise i ≤ 199
  wind_noise_bound : ∀ i : ℕ, -500 ≤ env.windNoise i ∧ env.windNoise i ≤ 499

/-- `solar_contribution` of one fallback iteration: zero unless the local
hour of `future_time` lies in `[6, 18]`, otherwise
`max(0, 8000 * np.sin((hour - 6) * np.pi / 12))`. -/
def solarContribution (env : Env) (tMin : ℚ) : ℚ :=
  if 6 ≤ hourOf tMin ∧ hourOf tMin ≤ 18 then
    max 0 (8000 * env.sinF (((hourOf tMin : ℚ) - 6) * env.piF / 12))
  else 0

/-- The unrounded `predicted_demand` of fallback iteration `i`:
`30000 + np.sin(i / 10) * 2000 + np.random.randint(-200, 200)`. -/
def demandFloat (env : Env) (i : ℕ) : ℚ :=
  30000 + env.sinF ((i : ℚ) / 10) * 2000 + (env.demandNoise i : ℚ)

/-- The unrounded `predicted_supply` of fallback iteration `i`:
`wind_contribution + solar_contribution` where
`wind_contribution = 5000 + np.sin(i / 5) * 1000 + np.random.randint(-500, 500)`. -/
def supplyFloat (env : Env) (i : ℕ) : ℚ :=
  5000 + env.sinF ((i : ℚ) / 5) * 1000 + (env.windNoise i : ℚ) +
    solarContribution env (env.nowMin + (i : ℚ) * (60 / 30))

/-- The record appended at fallback iteration `i` (source lines 110-135):
`future_time = now + timedelta(minutes=i * (60 / points_per_hour))`, each
numeric field rounded independently from the unrounded floats. -/
def fallbackPoint (env : Env) (i : ℕ) : ForecastPoint :=
  let future_time := env.nowMin + (i : ℚ) * (60 / 30)
  { timestamp := future_time
    timeLabel := timeLabelOf future_time
    demand := pyRound (demandFloat env i)
    supply := pyRound (supplyFloat env i)
    gap := pyRound (demandFloat env i - supplyFloat env i)
    isPrediction := true }

/-- The fallback (mock-data) series: `total_points = horizon_hours * 30`
iterations of the loop body; a non-positive horizon makes `range` empty. -/
def fallbackData (env : Env) (horizon_hours : ℤ) : List ForecastPoint :=
  (List.range (horizon_hours * 30).toNat).map (fallbackPoint env)

/-! ### Real-model path -/

/-- The raw prediction array returned by a model's forward pass, after
`.cpu().numpy()`: either a 2-dimensional `(Batch, k)` array or a
3-dimensional `(Batch, Horizon, k)` array, as the post-processing code
distinguishes. -/
inductive Prediction where
  | t2 (a : List (List ℚ))
  | t3 (a : List (List (List ℚ)))

/-- `a[0]` on the leading (batch) axis; empty batch raises `IndexError`. -/
def firstRow {α : Type} (a : List α) : Except String α :=
  match a with
  | [] => Except.error "IndexError"
  | x :: _ => Except.ok x

/-- `m[:, j]` on a 2-dimensional array: column `j`, raising `IndexError`
when some row is too short. -/
def colExtract (j : ℕ) : List (List ℚ) → Except String (List ℚ)
  | [] => Except.ok []
  | row :: rest =>
    match row.get? j with
    | some x =>
      match colExtract j rest with
      | Except.ok xs => Except.ok (x :: xs)
      | Except.error e => Except.error e
    | none => Except.error "IndexError"

/-- `np.zeros_like` on a 1-dimensional array. -/
def zerosLike (l : List ℚ) : List ℚ := l.map (fun _ => 0)

/-- `prediction.shape[-1]` (length of the last axis; model outputs are
rectangular, so the first row's length is the shape entry). -/
def shapeLast : Prediction → ℕ
  | .t2 a => a.headI.length
  | .t3 a => a.headI.headI.length

/-- Source lines 75-76: `predicted_demand = prediction[0][:, 0] if
prediction.ndim == 3 else prediction[0]` and `predicted_supply =
prediction[0][:, 1] if prediction.shape[-1] > 1 else
np.zeros_like(predicted_demand)`.  In the 2-dimensional case with more
than one column, `prediction[0]` is 1-dimensional and `[:, 1]` raises
`IndexError` (too many indices). -/
def postprocess (p : Prediction) : Except String (List ℚ × List ℚ) :=
  match p with
  | .t3 a =>
    match firstRow a with
    | Except.error e => Except.error e
    | Except.ok p0 =>
      match colExtract 0 p0 with
      | Except.error e => Except.error e
      | Except.ok predicted_demand =>
        match (if shapeLast p > 1 then colExtract 1 p0
               else Except.ok (zerosLike predicted_demand)) with
        | Except.error e => Except.error e
        | Except.ok predicted_supply => Except.ok (predicted_demand, predicted_supply)
  | .t2 a =>
    match firstRow a with
    | Except.error e => Except.error e
    | Except.ok predicted_demand =>
      match (if shapeLast p > 1 then
               (Except.error "IndexError" : Except String (List ℚ))
             else Except.ok (zerosLike predicted_demand)) with
      | Except.error e => Except.error e
      | Except.ok predicted_supply => Except.ok (predicted_demand, predicted_supply)

/-- A registered model, abstracted to the outcome of
`active_model(*inputs)` on this request's (random) mock inputs: a raw
prediction array, or the exception it raises (as its `str`). -/
structure Model where
  run : Except String Prediction

/-- Source lines 81-93: `for i in range(len(predicted_demand))`, with
`future_time = now + timedelta(minutes=i * 30)` and each numeric field
rounded independently; reading `predicted_supply[i]` past its end raises
`IndexError`. -/
def buildRealPoints (nowMin : ℚ) (dem sup : List ℚ) : List ℕ → Except String (List ForecastPoint)
  | [] => Except.ok []
  | i :: rest =>
    match dem.get? i, sup.get? i with
    | some d, some s =>
      match buildRealPoints nowMin dem sup rest with
      | Except.ok ps =>
        Except.ok
          ({ timestamp := nowMin + (i : ℚ) * 30
             timeLabel := timeLabelOf (nowMin + (i : ℚ) * 30)
             demand := pyRound d
             supply := pyRound s
             gap := pyRound (d - s)
             isPrediction := true } :: ps)
      | Except.error e => Except.error e
    | _, _ => Except.error "IndexError"

/-- The whole real-model branch of the `try` block: run the forward pass,
post-process, and build the data array; any step may raise. -/
def realModelBody (m : Model) (env : Env) : Except String (List ForecastPoint) :=
  match m.run with
  | Except.error e => Except.error e
  | Except.ok prediction =>
    match postprocess prediction with
    | Except.error e => Except.error e
    | Except.ok ds => buildRealPoints env.nowMin ds.1 ds.2 (List.range ds.1.length)

/-- JSON body of a `generate_prediction_data` response: the success
envelope `{status: "success", source, data}` or the error envelope
`{status: "error", message}`. -/
inductive RespBody where
  | success (source : String) (data : List ForecastPoint)
  | error (message : String)
deriving DecidableEq

/-- An HTTP response: status code plus JSON body (`jsonify(...)` alone is
200; `jsonify(...), 500` is 500). -/
structure HttpResponse where
  statusCode : ℕ
  body : RespBody
deriving DecidableEq

/-- `generate_prediction_data(horizon_hours)`: look up the model for this
horizon; run the real-model branch (exceptions become the 500 error
envelope) or the fallback generator (which cannot raise). -/
def generate_prediction_data (models : ℤ → Option Model) (env : Env) (horizon_hours : ℤ) :
    HttpResponse :=
  match models horizon_hours with
  | some active_model =>
    match realModelBody active_model env with
    | Except.ok data =>
      ⟨200, RespBody.success ("Real Model (" ++ toString horizon_hours ++ "h)") data⟩
    | Except.error e => ⟨500, RespBody.error e⟩
  | none => ⟨200, RespBody.success "LS-DL Model" (fallbackData env horizon_hours)⟩

/-- The `source` field of a response body, when present. -/
def sourceOf (r : HttpResponse) : Option String :=
  match r.body with
  | RespBody.success s _ => some s
  | RespBody.error _ => none

/-- The `data` array of a response body, when present. -/
def bodyData (r : HttpResponse) : Option (List ForecastPoint) :=
  match r.body with
  | RespBody.success _ d => some d
  | RespBody.error _ => none

/-- The `message` field of a response body, when present. -/
def messageOf (r : HttpResponse) : Option String :=
  match r.body with
  | RespBody.success _ _ => none
  | RespBody.error m => some m

/-- The Unicode character database of the Python runtime, abstracted as an
oracle in the same way as `np.sin`: which non-ASCII characters count as
whitespace for `int()`'s stripping, and the decimal-digit value (Unicode
category Nd) of non-ASCII characters.  The ASCII part of both
classifications is fixed and modelled concretely below. -/
structure UnicodeTables where
  wsNonAscii : Char → Bool
  digitValNonAscii : Char → Option ℕ

/-- `Py_UNICODE_ISSPACE`: on ASCII exactly 0x09-0x0D, 0x1C-0x1F and 0x20;
beyond ASCII the runtime's table decides (e.g. U+00A0, U+2000-U+200A). -/
def pyIsSpace (tb : UnicodeTables) (c : Char) : Bool :=
  if c.toNat < 128 then
    decide ((9 ≤ c.toNat ∧ c.toNat ≤ 13) ∨ (28 ≤ c.toNat ∧ c.toNat ≤ 32))
  else tb.wsNonAscii c

/-- Decimal-digit value of a character for `int()`: `'0'..'9'` on ASCII,
the runtime's Nd table beyond (e.g. Arabic-Indic `U+0660..U+0669`). -/
def pyDigitVal (tb : UnicodeTables) (c : Char) : Option ℕ :=
  if c.toNat < 128 then
    if 48 ≤ c.toNat ∧ c.toNat ≤ 57 then some (c.toNat - 48) else none
  else tb.digitValNonAscii c

/-- The tail of `int()`'s digit run after its first digit: the PEP 515
grammar `digit (underscore? digit)*` — an underscore must sit between two
digits, so a trailing, doubled, or digit-less underscore is rejected. -/
def digitsCore (tb : UnicodeTables) : List Char → ℕ → Option ℕ
  | [], acc => some acc
  | '_' :: c :: rest, acc =>
    match pyDigitVal tb c with
    | some d => digitsCore tb rest (acc * 10 + d)
    | none => none
  | ['_'], _ => none
  | c :: rest, acc =>
    match pyDigitVal tb c with
    | some d => digitsCore tb rest (acc * 10 + d)
    | none => none

/-- A full `int()` digit run: at least one decimal digit, then the
PEP 515 tail. -/
def parseUInt (tb : UnicodeTables) : List Char → Option ℕ
  | [] => none
  | c :: rest =>
    match pyDigitVal tb c with
    | some d => digitsCore tb rest d
    | none => none

/-- Python's `int(s)` on a string: strip surrounding Unicode whitespace,
an optional single sign directly against the digits, then an
underscore-grouped run of Unicode decimal digits; anything else raises
`ValueError`. -/
def pyIntOfString (tb : UnicodeTables) (s : String) : Option ℤ :=
  let t := ((s.data.dropWhile (pyIsSpace tb)).reverse.dropWhile (pyIsSpace tb)).reverse
  match t with
  | '-' :: rest => (parseUInt tb rest).map (fun v => -(v : ℤ))
  | '+' :: rest => (parseUInt tb rest).map (fun v => (v : ℤ))
  | _ => (parseUInt tb t).map (fun v => (v : ℤ))

/-- The `/predict` route handler: `int(request.args.get('horizon', 6))`.
A missing parameter defaults to the integer 6 (`int(6) = 6`, no parsing);
a present parameter is fed to `int`, whose `ValueError` escapes the
handler (the framework then produces its own 500, not the JSON error
envelope). -/
def predict_generic (tb : UnicodeTables) (models : ℤ → Option Model) (env : Env)
    (arg : Option String) : Except String HttpResponse :=
  match arg with
  | none => Except.ok (generate_prediction_data models env 6)
  | some s =>
    match pyIntOfString tb s with
    | some n => Except.ok (generate_prediction_data models env n)
    | none => Except.error "ValueError: invalid literal for int() with base 10"

/-- The most conservative instantiation of the Unicode oracle: no
non-ASCII whitespace and no non-ASCII digits.  On ASCII-only strings
every instantiation agrees with it, since `pyIsSpace` and `pyDigitVal`
never consult the tables below code point 128. -/
def tbAsciiOnly : UnicodeTables :=
  { wsNonAscii := fun _ => false, digitValNonAscii := fun _ => none }

/-- A small fragment of the real runtime tables: the Arabic-Indic digits
`U+0660..U+0669` and the no-break space U+00A0. -/
def tbExample : UnicodeTables :=
  { wsNonAscii := fun c => c.toNat = 160
    digitValNonAscii := fun c =>
      if 1632 ≤ c.toNat ∧ c.toNat ≤ 1641 then some (c.toNat - 1632) else none }

/-! ### Concrete instances used to exercise the theorems -/

/-- A concrete environment: midnight clock, a sine oracle that is
constantly zero, and zero noise draws. -/
def envTrivial : Env :=
  { nowMin := 0, sinF := fun _ => 0, piF := 314159 / 100000
    demandNoise := fun _ => 0, windNoise := fun _ => 0 }

/-- A model whose forward pass raises an exception. -/
def modelBoom : Model := ⟨Except.error "boom"⟩

/-- A registry with the raising model at horizon 6 only. -/
def modelsBoom : ℤ → Option Model := fun h => if h = 6 then some modelBoom else none

/-- A model returning a fixed `(1, 1, 2)` prediction tensor. -/
def modelOk : Model := ⟨Except.ok (Prediction.t3 [[[1, 2]]])⟩

/-- A registry with the fixed-output model at horizon 6 only. -/
def modelsOk : ℤ → Option Model := fun h => if h = 6 then some modelOk else none

/-! ### Bounds for `pyRound` -/

theorem pyRound_le (q : ℚ) : (pyRound q : ℚ) ≤ q + 1 / 2 := by
  have h1 : (⌊q⌋ : ℚ) ≤ q := Int.floor_le q
  have h2 : q < ⌊q⌋ + 1 := Int.lt_floor_add_one q
  unfold pyRound
  split_ifs <;> push_cast <;> linarith

theorem le_pyRound (q : ℚ) : q - 1 / 2 ≤ (pyRound q : ℚ) := by
  have h1 : (⌊q⌋ : ℚ) ≤ q := Int.floor_le q
  have h2 : q < ⌊q⌋ + 1 := Int.lt_floor_add_one q
  unfold pyRound
  split_ifs <;> push_cast <;> linarith

theorem pyRound_mem_Icc (a b : ℤ) (q : ℚ) (ha : (a : ℚ) ≤ q) (hb : q ≤ (b : ℚ)) :
    a ≤ pyRound q ∧ pyRound q ≤ b := by
  constructor
  · have h' : ((a - 1 : ℤ) : ℚ) < (pyRound q : ℚ) := by
      push_cast
      linarith [le_pyRound q]
    have h2 : (a - 1 : ℤ) < pyRound q := by exact_mod_cast h'
    omega
  · have h' : (pyRound q : ℚ) < ((b + 1 : ℤ) : ℚ) := by
      push_cast
      linarith [pyRound_le q]
    have h2 : pyRound q < (b + 1 : ℤ) := by exact_mod_cast h'
    omega

theorem pyRound_sub_bound (d s : ℚ) :
    |pyRound (d - s) - (pyRound d - pyRound s)| ≤ 1 := by
  set k : ℤ := pyRound (d - s) - (pyRound d - pyRound s) with hk
  have hq : |(k : ℚ)| ≤ 3 / 2 := by
    have b1 := pyRound_le (d - s)
    have b2 := le_pyRound (d - s)
    have b3 := pyRound_le d
    have b4 := le_pyRound d
    have b5 := pyRound_le s
    have b6 := le_pyRound s
    rw [abs_le]
    constructor <;> (push_cast [hk]; linarith)
  have hq' : ((|k| : ℤ) : ℚ) < ((2 : ℤ) : ℚ) := by
    rw [Int.cast_abs]
    push_cast
    linarith
  have h2 : |k| < 2 := by exact_mod_cast hq'
  omega

/-! ### Generic helper lemmas -/

theorem fallbackData_length (env : Env) (h : ℤ) :
    (fallbackData env h).length = (h * 30).toNat := by
  simp [fallbackData]

theorem fallbackData_get (env : Env) (h : ℤ) (i : ℕ)
    (hi : i < (fallbackData env h).length) :
    (fallbackData env h).get ⟨i, hi⟩ = fallbackPoint env i := by
  rw [List.get_eq_getElem]
  simp [fallbackData]

theorem fallbackPoint_timestamp (env : Env) (i : ℕ) :
    (fallbackPoint env i).timestamp = env.nowMin + (i : ℚ) * 2 := by
  show env.nowMin + (i : ℚ) * (60 / 30) = env.nowMin + (i : ℚ) * 2
  norm_num

/-! ### Claim theorems -/

/-- Claim C1: for every horizon_hours > 0 with no model registered for that
horizon, the fallback path of `generate_prediction_data` returns the
fallback series, which has exactly horizon_hours × 30 points. -/
theorem claim_C1 (models : ℤ → Option Model) (env : Env) (h : ℤ)
    (hpos : 0 < h) (hnone : models h = none) :
    bodyData (generate_prediction_data models env h) = some (fallbackData env h) ∧
    ((fallbackData env h).length : ℤ) = h * 30 := by
  constructor
  · simp [generate_prediction_data, hnone, bodyData]
  · rw [fallbackData_length]
    omega

/-- Witness for C1 at horizon 1 with the empty registry. -/
theorem claim_C1_witness :
    bodyData (generate_prediction_data (fun _ => none) envTrivial 1) =
      some (fallbackData envTrivial 1) ∧
    ((fallbackData envTrivial 1).length : ℤ) = 1 * 30 :=
  claim_C1 (fun _ => none) envTrivial 1 (by decide) rfl

/-- Claim C9: for every horizon_hours ≤ 0 with no model registered,
`generate_prediction_data` succeeds with status "success" and an empty data
array (the generation loop runs zero iterations). -/
theorem claim_C9 (models : ℤ → Option Model) (env : Env) (h : ℤ)
    (hle : h ≤ 0) (hnone : models h = none) :
    generate_prediction_data models env h =
      ⟨200, RespBody.success "LS-DL Model" []⟩ := by
  have h0 : (h * 30).toNat = 0 := by omega
  simp [generate_prediction_data, hnone, fallbackData, h0]

/-- Witness for C9 at horizon -1 with the empty registry. -/
theorem claim_C9_witness :
    generate_prediction_data (fun _ => none) envTrivial (-1) =
      ⟨200, RespBody.success "LS-DL Model" []⟩ :=
  claim_C9 (fun _ => none) envTrivial (-1) (by decide) rfl

/-- Claim C6: an exception raised inside `generate_prediction_data`'s try
block is caught and yields HTTP 500 with body exactly
`{status: "error", message: str(e)}` — no data array, no partial series. -/
theorem claim_C6 (models : ℤ → Option Model) (env : Env) (h : ℤ)
    (m : Model) (e : String)
    (hm : models h = some m) (he : realModelBody m env = Except.error e)
    (hne : e ≠ "") :
    generate_prediction_data models env h = ⟨500, RespBody.error e⟩ ∧
    bodyData (generate_prediction_data models env h) = none ∧
    messageOf (generate_prediction_data models env h) = some e ∧ e ≠ "" := by
  have h1 : generate_prediction_data models env h = ⟨500, RespBody.error e⟩ := by
    simp [generate_prediction_data, hm, he]
  exact ⟨h1, by rw [h1]; rfl, by rw [h1]; rfl, hne⟩

/-- Witness for C6: a registered model whose forward pass raises "boom". -/
theorem claim_C6_witness :
    generate_prediction_data modelsBoom envTrivial 6 = ⟨500, RespBody.error "boom"⟩ ∧
    bodyData (generate_prediction_data modelsBoom envTrivial 6) = none ∧
    messageOf (generate_prediction_data modelsBoom envTrivial 6) = some "boom" ∧
    "boom" ≠ "" :=
  claim_C6 modelsBoom envTrivial 6 modelBoom "boom" rfl rfl (by decide)

/-- Claim C7: with no model registered for the horizon the success
response's source is the fixed string "LS-DL Model" (horizon-independent);
with a registered model whose path succeeds it is "Real Model ({h}h)". -/
theorem claim_C7 (models : ℤ → Option Model) (env : Env) (h : ℤ) :
    (models h = none →
      sourceOf (generate_prediction_data models env h) = some "LS-DL Model") ∧
    (∀ m, models h = some m → (∃ data, realModelBody m env = Except.ok data) →
      sourceOf (generate_prediction_data models env h) =
        some ("Real Model (" ++ toString h ++ "h)")) := by
  constructor
  · intro hnone
    simp [generate_prediction_data, hnone, sourceOf]
  · rintro m hm ⟨d, hd⟩
    simp [generate_prediction_data, hm, hd, sourceOf]

/-- Witness for C7: both branches at horizon 6. -/
theorem claim_C7_witness :
    sourceOf (generate_prediction_data (fun _ => none) envTrivial 6) =
      some "LS-DL Model" ∧
    sourceOf (generate_prediction_data modelsOk envTrivial 6) =
      some ("Real Model (" ++ toString (6 : ℤ) ++ "h)") :=
  ⟨(claim_C7 (fun _ => none) envTrivial 6).1 rfl,
   (claim_C7 modelsOk envTrivial 6).2 modelOk rfl ⟨_, rfl⟩⟩

/-- The embedded `int()` on ASCII inputs, for every runtime table:
underscore-grouped numerals parse (PEP 515), misplaced underscores and
non-digits raise, signs and surrounding whitespace behave as in Python.
The proofs are by reduction alone, so they hold for an arbitrary
`UnicodeTables` oracle: these strings never consult the non-ASCII tables. -/
theorem pyIntOfString_ascii_examples (tb : UnicodeTables) :
    pyIntOfString tb "1_0" = some 10 ∧
    pyIntOfString tb "abc" = none ∧
    pyIntOfString tb "1__0" = none ∧
    pyIntOfString tb "_1" = none ∧
    pyIntOfString tb "1_" = none ∧
    pyIntOfString tb " -12 " = some (-12) ∧
    pyIntOfString tb "" = none ∧
    pyIntOfString tb "+7" = some 7 :=
  ⟨rfl, rfl, rfl, rfl, rfl, rfl, rfl, rfl⟩

/-- The embedded `int()` under a fragment of the real tables: Arabic-Indic
digits parse (`int("٠١") = 1`) and U+00A0 is stripped (`int("\xa07") = 7`). -/
theorem pyIntOfString_unicode_examples :
    pyIntOfString tbExample "٠١" = some 1 ∧
    pyIntOfString tbExample "\xa07" = some 7 :=
  ⟨rfl, rfl⟩

/-- Counterexample to claim C5 as stated: an unparseable horizon parameter
does not default to 6 — `int("abc")` raises an uncaught ValueError, so the
handler does not return the horizon-6 response.  "abc" is ASCII-only, so
the choice of Unicode oracle is irrelevant to this input. -/
theorem claim_C5_counterexample :
    predict_generic tbAsciiOnly (fun _ => none) envTrivial (some "abc") ≠
      Except.ok (generate_prediction_data (fun _ => none) envTrivial 6) := by
  have hp : pyIntOfString tbAsciiOnly "abc" = none := rfl
  simp [predict_generic, hp]

/-- Claim C5 (amended): a missing horizon parameter defaults to 6,
behaving identically to `?horizon=6`; a parameter `int()` accepts uses its
value; a parameter `int()` rejects raises ValueError out of the handler
(the framework then yields its own 500 error page, not the default-6
data).  Stated for every Unicode table oracle. -/
theorem claim_C5 (tb : UnicodeTables) (models : ℤ → Option Model) (env : Env) :
    predict_generic tb models env none =
      Except.ok (generate_prediction_data models env 6) ∧
    (∀ s n, pyIntOfString tb s = some n →
      predict_generic tb models env (some s) =
        Except.ok (generate_prediction_data models env n)) ∧
    (∀ s, pyIntOfString tb s = none →
      predict_generic tb models env (some s) =
        Except.error "ValueError: invalid literal for int() with base 10") := by
  refine ⟨rfl, ?_, ?_⟩
  · intro s n hs
    simp [predict_generic, hs]
  · intro s hs
    simp [predict_generic, hs]

/-- Witness for C5 (amended) with the underscore-grouped parameter "1_0",
served as horizon 10. -/
theorem claim_C5_witness :
    predict_generic tbAsciiOnly (fun _ => none) envTrivial (some "1_0") =
      Except.ok (generate_prediction_data (fun _ => none) envTrivial 10) :=
  (claim_C5 tbAsciiOnly (fun _ => none) envTrivial).2.1 "1_0" 10 rfl

/-- Claim C2: the fallback point at 0-based index i carries timestamp
now + i × 2 minutes; hence timestamps are strictly increasing and
consecutive points are exactly 2 minutes apart. -/
theorem claim_C2 (env : Env) (h : ℤ) (i j : ℕ)
    (hi : i < (fallbackData env h).length) (hj : j < (fallbackData env h).length) :
    ((fallbackData env h).get ⟨i, hi⟩).timestamp = env.nowMin + (i : ℚ) * 2 ∧
    (i < j →
      ((fallbackData env h).get ⟨i, hi⟩).timestamp <
        ((fallbackData env h).get ⟨j, hj⟩).timestamp) ∧
    (j = i + 1 →
      ((fallbackData env h).get ⟨j, hj⟩).timestamp -
        ((fallbackData env h).get ⟨i, hi⟩).timestamp = 2) := by
  rw [fallbackData_get env h i hi, fallbackData_get env h j hj,
    fallbackPoint_timestamp, fallbackPoint_timestamp]
  refine ⟨rfl, ?_, ?_⟩
  · intro hij
    have hc : (i : ℚ) < (j : ℚ) := by exact_mod_cast hij
    linarith
  · intro hji
    subst hji
    push_cast
    ring

/-- Witness for C2 on the first two points of the horizon-1 series. -/
theorem claim_C2_witness :
    ((fallbackData envTrivial 1).get ⟨0, by decide⟩).timestamp =
      envTrivial.nowMin + ((0 : ℕ) : ℚ) * 2 ∧
    ((fallbackData envTrivial 1).get ⟨0, by decide⟩).timestamp <
      ((fallbackData envTrivial 1).get ⟨1, by decide⟩).timestamp ∧
    ((fallbackData envTrivial 1).get ⟨1, by decide⟩).timestamp -
      ((fallbackData envTrivial 1).get ⟨0, by decide⟩).timestamp = 2 := by
  have h := claim_C2 envTrivial 1 0 1 (by decide) (by decide)
  exact ⟨h.1, h.2.1 (by decide), h.2.2 rfl⟩

/-- Claim C3: in every constructed ForecastPoint (fallback and real-model
paths alike) demand, supply and gap are rounded independently from the
unrounded floats, gap being the rounding of the unrounded difference, so
the recorded gap differs from recorded demand − recorded supply by at
most 1. -/
theorem claim_C3 :
    (∀ env i,
      (fallbackPoint env i).demand = pyRound (demandFloat env i) ∧
      (fallbackPoint env i).supply = pyRound (supplyFloat env i) ∧
      (fallbackPoint env i).gap = pyRound (demandFloat env i - supplyFloat env i) ∧
      |(fallbackPoint env i).gap -
        ((fallbackPoint env i).demand - (fallbackPoint env i).supply)| ≤ 1) ∧
    (∀ nowMin dem sup idxs data,
      buildRealPoints nowMin dem sup idxs = Except.ok data →
      ∀ p ∈ data, |p.gap - (p.demand - p.supply)| ≤ 1) := by
  constructor
  · intro env i
    exact ⟨rfl, rfl, rfl, pyRound_sub_bound (demandFloat env i) (supplyFloat env i)⟩
  · intro nowMin dem sup idxs
    induction idxs with
    | nil =>
      intro data hd p hp
      simp only [buildRealPoints] at hd
      cases hd
      simp at hp
    | cons i rest ih =>
      intro data hd p hp
      simp only [buildRealPoints] at hd
      cases hdem : dem.get? i <;> cases hsup : sup.get? i <;>
        rw [hdem, hsup] at hd
      case none.none => cases hd
      case none.some => cases hd
      case some.none => cases hd
      case some.some d s =>
        cases hrec : buildRealPoints nowMin dem sup rest with
        | error e => rw [hrec] at hd; cases hd
        | ok ps =>
          rw [hrec] at hd
          cases hd
          rcases List.mem_cons.mp hp with hhead | htail
          · subst hhead
            exact pyRound_sub_bound d s
          · exact ih ps hrec p htail

/-- Witness for C3: the fallback point at index 0 and a one-point
real-model series built from demand [1] and supply [2]. -/
theorem claim_C3_witness :
    |(fallbackPoint envTrivial 0).gap -
      ((fallbackPoint envTrivial 0).demand - (fallbackPoint envTrivial 0).supply)| ≤ 1 ∧
    |pyRound ((1 : ℚ) - 2) - (pyRound (1 : ℚ) - pyRound (2 : ℚ))| ≤ 1 :=
  ⟨(claim_C3.1 envTrivial 0).2.2.2,
   claim_C3.2 0 [1] [2] [0] _ rfl _ (List.mem_singleton.mpr rfl)⟩

/-- Claim C4: the fallback solar contribution is exactly zero whenever the
local hour of the point's future_time is outside [6, 18], and inside that
window it is the non-negative clamp max(0, 8000·sin((hour−6)·π/12)); the
unrounded supply of iteration i is wind plus exactly this term. -/
theorem claim_C4 (env : Env) (t : ℚ) (i : ℕ) :
    (¬ (6 ≤ hourOf t ∧ hourOf t ≤ 18) → solarContribution env t = 0) ∧
    ((6 ≤ hourOf t ∧ hourOf t ≤ 18) →
      solarContribution env t =
        max 0 (8000 * env.sinF (((hourOf t : ℚ) - 6) * env.piF / 12)) ∧
      0 ≤ solarContribution env t) ∧
    supplyFloat env i =
      5000 + env.sinF ((i : ℚ) / 5) * 1000 + (env.windNoise i : ℚ) +
        solarContribution env (env.nowMin + (i : ℚ) * (60 / 30)) := by
  refine ⟨?_, ?_, rfl⟩
  · intro hnot
    unfold solarContribution
    rw [if_neg hnot]
  · intro hday
    unfold solarContribution
    rw [if_pos hday]
    exact ⟨rfl, le_max_left 0 _⟩

/-- Witness for C4 at midnight (hour 0, outside) and 06:00 (hour 6, inside). -/
theorem claim_C4_witness :
    solarContribution envTrivial 0 = 0 ∧
    0 ≤ solarContribution envTrivial 360 ∧
    supplyFloat envTrivial 0 =
      5000 + envTrivial.sinF (((0 : ℕ) : ℚ) / 5) * 1000 + (envTrivial.windNoise 0 : ℚ) +
        solarContribution envTrivial (envTrivial.nowMin + ((0 : ℕ) : ℚ) * (60 / 30)) :=
  ⟨(claim_C4 envTrivial 0 0).1 (by norm_num [hourOf]),
   ((claim_C4 envTrivial 360 0).2.1 (by norm_num [hourOf])).2,
   (claim_C4 envTrivial 0 0).2.2⟩

/-- The clamped solar term always lies in [0, 8000] when the sine oracle
lands in [-1, 1]. -/
theorem solarContribution_bounds (env : Env) (hsin : ∀ q : ℚ, |env.sinF q| ≤ 1)
    (t : ℚ) : 0 ≤ solarContribution env t ∧ solarContribution env t ≤ 8000 := by
  unfold solarContribution
  split_ifs with hday
  · constructor
    · exact le_max_left 0 _
    · have hb := abs_le.mp (hsin (((hourOf t : ℚ) - 6) * env.piF / 12))
      have h8 : 8000 * env.sinF (((hourOf t : ℚ) - 6) * env.piF / 12) ≤ 8000 := by
        linarith
      exact max_le (by norm_num) h8
  · norm_num

/-- Claim C10: for every fallback point, for all noise outcomes and clock
times, recorded demand lies in [27800, 32199] and recorded supply in
[3500, 14499]; in particular supply is strictly positive. -/
theorem claim_C10 (env : Env) (hwf : EnvWF env) (i : ℕ) :
    27800 ≤ (fallbackPoint env i).demand ∧ (fallbackPoint env i).demand ≤ 32199 ∧
    3500 ≤ (fallbackPoint env i).supply ∧ (fallbackPoint env i).supply ≤ 14499 ∧
    0 < (fallbackPoint env i).supply := by
  have hs1 := abs_le.mp (hwf.sin_bound ((i : ℚ) / 10))
  have hs2 := abs_le.mp (hwf.sin_bound ((i : ℚ) / 5))
  have hdn := hwf.demand_noise_bound i
  have hwn := hwf.wind_noise_bound i
  have hdn1 : (-200 : ℚ) ≤ (env.demandNoise i : ℚ) := by exact_mod_cast hdn.1
  have hdn2 : (env.demandNoise i : ℚ) ≤ 199 := by exact_mod_cast hdn.2
  have hwn1 : (-500 : ℚ) ≤ (env.windNoise i : ℚ) := by exact_mod_cast hwn.1
  have hwn2 : (env.windNoise i : ℚ) ≤ 499 := by exact_mod_cast hwn.2
  have hsol := solarContribution_bounds env hwf.sin_bound (env.nowMin + (i : ℚ) * (60 / 30))
  have hdlo : ((27800 : ℤ) : ℚ) ≤ demandFloat env i := by
    unfold demandFloat
    push_cast
    linarith
  have hdhi : demandFloat env i ≤ ((32199 : ℤ) : ℚ) := by
    unfold demandFloat
    push_cast
    linarith
  have hslo : ((3500 : ℤ) : ℚ) ≤ supplyFloat env i := by
    unfold supplyFloat
    push_cast
    linarith
  have hshi : supplyFloat env i ≤ ((14499 : ℤ) : ℚ) := by
    unfold supplyFloat
    push_cast
    linarith
  have hdem := pyRound_mem_Icc 27800 32199 (demandFloat env i) hdlo hdhi
  have hsup := pyRound_mem_Icc 3500 14499 (supplyFloat env i) hslo hshi
  have ed : (fallbackPoint env i).demand = pyRound (demandFloat env i) := rfl
  have es : (fallbackPoint env i).supply = pyRound (supplyFloat env i) := rfl
  rw [ed, es]
  exact ⟨hdem.1, hdem.2, hsup.1, hsup.2, by omega⟩

/-- Witness for C10: the zero-noise, zero-sine environment at index 0. -/
theorem claim_C10_witness :
    27800 ≤ (fallbackPoint envTrivial 0).demand ∧
    (fallbackPoint envTrivial 0).demand ≤ 32199 ∧
    3500 ≤ (fallbackPoint envTrivial 0).supply ∧
    (fallbackPoint envTrivial 0).supply ≤ 14499 ∧
    0 < (fallbackPoint envTrivial 0).supply :=
  claim_C10 envTrivial
    ⟨fun q => by norm_num [envTrivial],
     fun i => by norm_num [envTrivial],
     fun i => by norm_num [envTrivial]⟩ 0

/-- Column extraction succeeds on every matrix all of whose rows are long
enough, returning the j-th entry of each row. -/
theorem colExtract_ok (j : ℕ) :
    ∀ m : List (List ℚ), (∀ row ∈ m, j < row.length) →
      colExtract j m = Except.ok (m.map (fun r => r.getD j 0)) := by
  intro m
  induction m with
  | nil => intro _; rfl
  | cons row rest ih =>
    intro hall
    have hj : j < row.length := hall row (List.mem_cons_self row rest)
    have hx : row.get? j = some (row.getD j 0) := by
      rw [List.getD_eq_getElem?_getD, List.getElem?_eq_getElem hj]
      exact List.get?_eq_get hj
    have hrest := ih (fun r hr => hall r (List.mem_cons_of_mem row hr))
    simp only [colExtract, hx, hrest, List.map_cons]

/-- Claim C8: real-model post-processing picks demand = channel 0 and
supply = channel 1 of `prediction[0]` along the last axis when the raw
tensor is 3-dimensional (with its channel axis present), and for a
2-dimensional tensor demand is the full `prediction[0]` row with a
zero-array supply fallback when no second channel exists. -/
theorem claim_C8 (p0 : List (List ℚ)) (rest : List (List (List ℚ)))
    (q0 : List ℚ) (rest2 : List (List ℚ)) (c : ℕ) (hc : 2 ≤ c)
    (hrect : ∀ row ∈ p0, row.length = c) (hne : p0 ≠ [])
    (hq : q0.length ≤ 1) :
    postprocess (Prediction.t3 (p0 :: rest)) =
      Except.ok (p0.map (fun r => r.getD 0 0), p0.map (fun r => r.getD 1 0)) ∧
    colExtract 0 p0 = Except.ok (p0.map (fun r => r.getD 0 0)) ∧
    colExtract 1 p0 = Except.ok (p0.map (fun r => r.getD 1 0)) ∧
    postprocess (Prediction.t2 (q0 :: rest2)) = Except.ok (q0, zerosLike q0) := by
  have hdem := colExtract_ok 0 p0 (fun r hr => by rw [hrect r hr]; omega)
  have hsup := colExtract_ok 1 p0 (fun r hr => by rw [hrect r hr]; omega)
  have hshape : shapeLast (Prediction.t3 (p0 :: rest)) = c := by
    obtain ⟨r0, p0tail, rfl⟩ : ∃ r0 p0tail, p0 = r0 :: p0tail := by
      cases p0 with
      | nil => exact absurd rfl hne
      | cons a b => exact ⟨a, b, rfl⟩
    show (r0 :: p0tail).headI.length = c
    exact hrect r0 (List.mem_cons_self r0 p0tail)
  have hgt : shapeLast (Prediction.t3 (p0 :: rest)) > 1 := by omega
  have hshape2 : shapeLast (Prediction.t2 (q0 :: rest2)) = q0.length := rfl
  have hngt : ¬ shapeLast (Prediction.t2 (q0 :: rest2)) > 1 := by omega
  refine ⟨?_, hdem, hsup, ?_⟩
  · simp [postprocess, firstRow, hdem, hsup, if_pos hgt]
  · simp [postprocess, firstRow, if_neg hngt]

/-- Witness for C8 on the tensors (1,2,2) `[[[1,2],[3,4]]]` and
(1,1) `[[5]]`. -/
theorem claim_C8_witness :
    postprocess (Prediction.t3 [[[1, 2], [3, 4]]]) =
      Except.ok ([[1, 2], [3, 4]].map (fun r => r.getD 0 0),
        [[1, 2], [3, 4]].map (fun r => r.getD 1 0)) ∧
    colExtract 0 [[1, 2], [3, 4]] =
      Except.ok ([[1, 2], [3, 4]].map (fun r => r.getD 0 0)) ∧
    colExtract 1 [[1, 2], [3, 4]] =
      Except.ok ([[1, 2], [3, 4]].map (fun r => r.getD 1 0)) ∧
    postprocess (Prediction.t2 [[5]]) = Except.ok ([5], zerosLike [5]) :=
  claim_C8 [[1, 2], [3, 4]] [] [5] [] 2 (by norm_num)
    (by intro row hr
        rcases List.mem_cons.mp hr with h1 | h2
        · rw [h1]; rfl
        · rcases List.mem_cons.mp h2 with h3 | h4
          · rw [h3]; rfl
          · simp at h4)
    (by simp) (by simp)

end GridSense
